import Mathlib

/-!
Shallow embedding of the `EngineService` from
`src/app/services/engine.service.ts` (a three.js car viewer driven by an
Angular service), together with the pieces of the browser environment it
touches: the DOM color inputs, event listeners, `requestAnimationFrame`
scheduling and the draw calls issued by the renderer.

Numeric fields that the source stores as JS numbers are modelled as `ℚ`;
the wheel rotation angle, which the source sets to `time * Math.PI`, is
modelled as a real number so that π is exact.
-/

namespace ThreeCar

/-- A color value as held by a three.js `Color`: either set from a numeric
hex literal at construction time or set from a CSS string via `Color.set`. -/
inductive ColorVal where
  | hexNum (v : Nat)
  | css (s : String)
deriving DecidableEq, Repr

/-- The three.js material classes used by the service. -/
inductive MatKind where
  | physical
  | standard
  | basic
deriving DecidableEq, Repr

/-- A material object; fields not given at construction keep the three.js
defaults (`clearcoat = 0`, `transmission = 0`, `transparent = false`). -/
structure Material where
  kind : MatKind
  color : ColorVal
  metalness : ℚ
  roughness : ℚ
  clearcoat : ℚ
  clearcoatRoughness : ℚ
  transmission : ℚ
  transparent : Bool
deriving DecidableEq, Repr

/-- `bodyMaterial` as constructed at the top of `createScene`. -/
def bodyMaterial0 : Material :=
  { kind := .physical, color := .hexNum 0xff0000, metalness := 0.6,
    roughness := 0.4, clearcoat := 0.05, clearcoatRoughness := 0.05,
    transmission := 0, transparent := false }

/-- `detailsMaterial` as constructed in `createScene`. -/
def detailsMaterial0 : Material :=
  { kind := .standard, color := .hexNum 0xffffff, metalness := 1.0,
    roughness := 0.5, clearcoat := 0, clearcoatRoughness := 0,
    transmission := 0, transparent := false }

/-- `glassMaterial` as constructed in `createScene`. -/
def glassMaterial0 : Material :=
  { kind := .physical, color := .hexNum 0xffffff, metalness := 0,
    roughness := 0.1, clearcoat := 0, clearcoatRoughness := 0,
    transmission := 0.9, transparent := true }

/-- `Color.set` on a material, as done by the color-input listeners. -/
def Material.setColor (m : Material) (v : String) : Material :=
  { m with color := .css v }

/-- Which material object a mesh's `material` field points at: either one of
the materials that came with the loaded asset, or one of the objects created
by the service (`bodyMaterial`, `detailsMaterial`, `glassMaterial`, or the
`MeshBasicMaterial` of the ground-shadow plane). -/
inductive MaterialRef where
  | loadedDefault (idx : Nat)
  | bodyRef
  | detailsRef
  | glassRef
  | shadowRef
deriving DecidableEq, Repr

/-- A node of the loaded model's object graph.  Only the fields the service
reads or writes are modelled: the lookup name, the `material` slot, and
`rotation.x` (which `render` drives for the wheels and the load callback
sets to `-π/2` on the shadow plane). -/
structure Object3D where
  name : String
  material : MaterialRef
  rotationX : ℝ

/-- `Object3D.getObjectByName`: first node with the given name. -/
def getObjectByName (nodes : List Object3D) (n : String) : Option Object3D :=
  nodes.find? (fun o => o.name == n)

/-- Assign a material to the first node with the given name (the object
`getObjectByName` would have returned). -/
def setMaterialByName : List Object3D → String → MaterialRef → List Object3D
  | [], _, _ => []
  | o :: rest, n, m =>
    if o.name == n then { o with material := m } :: rest
    else o :: setMaterialByName rest n m

/-- The result of `GLTFLoader.load`: `gltf.scene.children` is a list of
object subtrees; the callback reads `children[0]` as the car model. -/
structure Gltf where
  sceneChildren : List (List Object3D)

/-- The ground-shadow plane mesh the load callback builds: a nameless mesh
carrying the `MeshBasicMaterial` textured from the baked shadow image,
rotated flat by `-π/2` about x. -/
noncomputable def shadowMesh : Object3D :=
  { name := "", material := .shadowRef, rotationX := -(Real.pi / 2) }

/-- The perspective camera: construction parameters, world position, and the
projection-matrix parameters as of the last `updateProjectionMatrix`. -/
structure PerspectiveCamera where
  fov : ℚ
  aspect : ℚ
  near : ℚ
  far : ℚ
  posX : ℚ
  posY : ℚ
  posZ : ℚ
  projFov : ℚ
  projAspect : ℚ
  projNear : ℚ
  projFar : ℚ
deriving DecidableEq, Repr

/-- `updateProjectionMatrix`: recompute the projection from the current
`fov`/`aspect`/`near`/`far`. -/
def PerspectiveCamera.updateProjectionMatrix (c : PerspectiveCamera) :
    PerspectiveCamera :=
  { c with projFov := c.fov, projAspect := c.aspect, projNear := c.near,
           projFar := c.far }

/-- `new THREE.PerspectiveCamera(fov, aspect, near, far)`; the constructor
computes the projection matrix and leaves the camera at the origin. -/
def PerspectiveCamera.new (fov aspect near far : ℚ) : PerspectiveCamera :=
  { fov := fov, aspect := aspect, near := near, far := far,
    posX := 0, posY := 0, posZ := 0,
    projFov := fov, projAspect := aspect, projNear := near, projFar := far }

/-- `renderer.outputEncoding` values used by the source. -/
inductive TextureEncoding where
  | linearEncoding
  | sRGBEncoding
deriving DecidableEq, Repr

/-- `renderer.toneMapping` values used by the source. -/
inductive ToneMapping where
  | noToneMapping
  | acesFilmicToneMapping
deriving DecidableEq, Repr

/-- The WebGL renderer: construction flags plus the mutable output state the
service touches (`setPixelRatio`, `setSize`, encoding, tone mapping). -/
structure Renderer where
  alpha : Bool
  antialias : Bool
  width : ℚ
  height : ℚ
  pixelRatio : ℚ
  outputEncoding : TextureEncoding
  toneMapping : ToneMapping
  toneMappingExposure : ℚ
deriving DecidableEq, Repr

/-- `new THREE.WebGLRenderer({canvas, alpha, antialias})` with three.js
defaults for everything else (canvas size 300×150, pixel ratio 1, linear
encoding, no tone mapping, exposure 1). -/
def Renderer.new (alpha antialias : Bool) : Renderer :=
  { alpha := alpha, antialias := antialias, width := 300, height := 150,
    pixelRatio := 1, outputEncoding := .linearEncoding,
    toneMapping := .noToneMapping, toneMappingExposure := 1 }

/-- `renderer.setSize(w, h)`. -/
def Renderer.setSize (r : Renderer) (w h : ℚ) : Renderer :=
  { r with width := w, height := h }

/-- Orbit controls: the fields the service writes. -/
structure Controls where
  targetX : ℚ
  targetY : ℚ
  targetZ : ℚ
  updated : Bool
deriving DecidableEq, Repr

/-- The grid helper: construction parameters and the `position.z` that
`render` scrolls every frame. -/
structure GridHelper where
  size : ℚ
  divisions : ℚ
  colorCenterLine : ColorVal
  colorGrid : ColorVal
  posZ : ℚ
deriving DecidableEq, Repr

/-- The scene: background, environment map, fog, the grid added by
`createScene` and the car model added by the load callback. -/
structure Scene where
  background : ColorVal
  environmentSet : Bool
  fog : Option (ColorVal × ℚ × ℚ)
  gridAdded : Bool
  carModel : Option (List Object3D)

/-- The service's own fields (`EngineService`).  Fields the constructor
leaves unassigned are `none`; `wheels` starts `[]` and `frameId` starts
`null`.  The three material locals of `createScene` are also recorded here,
since the registered listeners and the load callback capture them. -/
structure EngineState where
  canvasSet : Bool
  renderer : Option Renderer
  camera : Option PerspectiveCamera
  scene : Option Scene
  controls : Option Controls
  grid : Option GridHelper
  wheels : List (Option Object3D)
  frameId : Option Nat
  bodyMaterial : Option Material
  detailsMaterial : Option Material
  glassMaterial : Option Material
  loadRequested : Bool

/-- The service as Angular constructs it. -/
def EngineState.fresh : EngineState :=
  { canvasSet := false, renderer := none, camera := none, scene := none,
    controls := none, grid := none, wheels := [], frameId := none,
    bodyMaterial := none, detailsMaterial := none, glassMaterial := none,
    loadRequested := false }

/-- The DOM as far as the service reads it: whether each of the three color
inputs looked up by `document.getElementById` exists. -/
structure Dom where
  hasBodyColorInput : Bool
  hasDetailsColorInput : Bool
  hasGlassColorInput : Bool
deriving DecidableEq, Repr

/-- `document.getElementById` restricted to the three ids the service uses;
`none` models a `null` return. -/
def Dom.getElementById (d : Dom) (i : String) : Option Unit :=
  if i = "body-color" then (if d.hasBodyColorInput then some () else none)
  else if i = "details-color" then (if d.hasDetailsColorInput then some () else none)
  else if i = "glass-color" then (if d.hasGlassColorInput then some () else none)
  else none

/-- What a registered listener callback does when fired. -/
inductive ListenerAction where
  | setBodyColor
  | setDetailsColor
  | setGlassColor
  | startRender
  | doResize
deriving DecidableEq, Repr

/-- One `addEventListener` registration: the target (a color-input element
id, `"window"` or `"document"`), the event kind, and the callback. -/
structure Listener where
  target : String
  eventKind : String
  action : ListenerAction
deriving DecidableEq, Repr

/-- `window.innerWidth` / `window.innerHeight` / `window.devicePixelRatio`
as the service reads them. -/
structure WindowDims where
  innerWidth : ℚ
  innerHeight : ℚ
  devicePixelRatio : ℚ
deriving DecidableEq, Repr

/-- The whole observable state: the service, the DOM, the listener registry,
the `requestAnimationFrame` queue (`pending`, fired in FIFO order; ids are
handed out from `nextFrameId`), the `cancelAnimationFrame` calls issued, a
count of draw calls (`renderer.render`) and of `render()` invocations, and
whether `DOMContentLoaded` has already fired. -/
structure World where
  eng : EngineState
  dom : Dom
  listeners : List Listener
  nextFrameId : Nat
  pending : List Nat
  cancels : List Nat
  draws : Nat
  renderCalls : Nat
  domLoaded : Bool

/-- A world holding a freshly constructed service in the given document. -/
def World.fresh (d : Dom) (loaded : Bool) : World :=
  { eng := .fresh, dom := d, listeners := [], nextFrameId := 0,
    pending := [], cancels := [], draws := 0, renderCalls := 0,
    domLoaded := loaded }

/-- The state after an operation, whether it returned normally (`ok`) or
threw (`error`); a thrown exception keeps all mutations made so far. -/
def exState : Except World World → World
  | .ok w => w
  | .error w => w

/-- Whether an operation returned without throwing. -/
def exOk : Except World World → Bool
  | .ok _ => true
  | .error _ => false

/-- `createScene`: builds the three material locals, looks up the three
color inputs and registers their listeners (a missing element makes the
`addEventListener` call throw a reference error there, before any service
field is assigned), then assigns the canvas, renderer, camera, controls,
scene, and grid, and kicks off the asynchronous model load.  The load
callback itself is `onCarLoad`. -/
def createScene (w : World) (win : WindowDims) : Except World World :=
  match w.dom.getElementById "body-color" with
  | none => .error w
  | some _ =>
  let w := { w with listeners :=
    w.listeners ++ [Listener.mk "body-color" "change" .setBodyColor] }
  match w.dom.getElementById "details-color" with
  | none => .error w
  | some _ =>
  let w := { w with listeners :=
    w.listeners ++ [Listener.mk "details-color" "input" .setDetailsColor] }
  match w.dom.getElementById "glass-color" with
  | none => .error w
  | some _ =>
  let w := { w with listeners :=
    w.listeners ++ [Listener.mk "glass-color" "input" .setGlassColor] }
  let r := Renderer.new true true
  let r := { r with pixelRatio := win.devicePixelRatio }
  let r := r.setSize win.innerWidth win.innerHeight
  let r := { r with outputEncoding := .sRGBEncoding,
                    toneMapping := .acesFilmicToneMapping,
                    toneMappingExposure := 0.85 }
  let cam := PerspectiveCamera.new 40 (win.innerWidth / win.innerHeight) 0.1 100
  let cam := { cam with posX := 4.25, posY := 1.4, posZ := -4.5 }
  let ctl : Controls := { targetX := 0, targetY := 0.5, targetZ := 0,
                          updated := true }
  let sc : Scene := { background := .hexNum 0xeeeeee, environmentSet := true,
                      fog := some (.hexNum 0xeeeeee, 10, 50),
                      gridAdded := true, carModel := none }
  let g : GridHelper := { size := 100, divisions := 40,
                          colorCenterLine := .hexNum 0x000000,
                          colorGrid := .hexNum 0x000000, posZ := 0 }
  .ok { w with eng := { w.eng with
          canvasSet := true, renderer := some r, camera := some cam,
          controls := some ctl, scene := some sc, grid := some g,
          bodyMaterial := some bodyMaterial0,
          detailsMaterial := some detailsMaterial0,
          glassMaterial := some glassMaterial0,
          loadRequested := true } }

/-- One material replacement inside the load callback:
`(<Mesh>carModel.getObjectByName(n)).material = m` throws a reference error
(`none`) when the lookup returns `undefined`. -/
def assignMaterial (nodes : List Object3D) (n : String) (m : MaterialRef) :
    Option (List Object3D) :=
  match getObjectByName nodes n with
  | none => none
  | some _ => some (setMaterialByName nodes n m)

/-- The `loader.load` completion callback: takes `children[0]` as the car
model, replaces the materials of the six named sub-meshes, pushes the four
wheel lookups (possibly `undefined`) onto `this.wheels`, builds the
ground-shadow plane, adds it to the car model and adds the model to the
scene.  A failed named lookup throws at that assignment, leaving the service
state untouched (the wheel push and `scene.add` come after all six). -/
noncomputable def onCarLoad (w : World) (g : Gltf) : Except World World :=
  match g.sceneChildren.head? with
  | none => .error w
  | some carModel =>
  match assignMaterial carModel "body" .bodyRef with
  | none => .error w
  | some c1 =>
  match assignMaterial c1 "rim_fl" .detailsRef with
  | none => .error w
  | some c2 =>
  match assignMaterial c2 "rim_fr" .detailsRef with
  | none => .error w
  | some c3 =>
  match assignMaterial c3 "rim_rl" .detailsRef with
  | none => .error w
  | some c4 =>
  match assignMaterial c4 "rim_rr" .detailsRef with
  | none => .error w
  | some c5 =>
  match assignMaterial c5 "glass" .glassRef with
  | none => .error w
  | some c6 =>
  let w := { w with eng := { w.eng with wheels := w.eng.wheels ++
    [getObjectByName c6 "wheel_fl", getObjectByName c6 "wheel_fr",
     getObjectByName c6 "wheel_rl", getObjectByName c6 "wheel_rr"] } }
  let c7 := c6 ++ [shadowMesh]
  match w.eng.scene with
  | none => .error w
  | some sc =>
    let sc' : Scene := { sc with carModel := some c7 }
    .ok { w with eng := { w.eng with scene := some sc' } }

/-- Truncating rational part used to model the JS `%` operator (which
truncates the quotient toward zero). -/
def qtrunc (q : ℚ) : ℤ := if 0 ≤ q then ⌊q⌋ else -⌊-q⌋

/-- The JS remainder `a % b`. -/
def jsRem (a b : ℚ) : ℚ := a - b * (qtrunc (a / b) : ℚ)

/-- The wheel loop of `render`: `this.wheels[i].rotation.x = r` for each
index in order; hitting an `undefined` entry throws there, keeping the
mutations already made and leaving the rest untouched.  The `Bool` is
`false` when the loop threw. -/
def rotateWheelsPartial : List (Option Object3D) → ℝ →
    List (Option Object3D) × Bool
  | [], _ => ([], true)
  | none :: rest, _ => (none :: rest, false)
  | some o :: rest, r =>
    let p := rotateWheelsPartial rest r
    (some { o with rotationX := r } :: p.1, p.2)

/-- `render()`, at a moment when `performance.now()` reads `nowMs`
milliseconds: rotates each registered wheel to `time * π` where
`time = -nowMs / 1000`, scrolls the grid to `-time % 5`, schedules the next
frame (recording its id in `frameId`), and issues the draw call.  Each
dereference of an unassigned object throws at that point, keeping earlier
mutations. -/
noncomputable def render (w : World) (nowMs : ℚ) : Except World World :=
  let w := { w with renderCalls := w.renderCalls + 1 }
  let time : ℚ := -nowMs / 1000
  let p := rotateWheelsPartial w.eng.wheels ((time : ℝ) * Real.pi)
  let w := { w with eng := { w.eng with wheels := p.1 } }
  if p.2 = false then .error w else
  match w.eng.grid with
  | none => .error w
  | some g =>
  let g' : GridHelper := { g with posZ := jsRem (-time) 5 }
  let w := { w with eng := { w.eng with grid := some g' } }
  let fid := w.nextFrameId
  let w := { w with nextFrameId := fid + 1, pending := w.pending ++ [fid],
                    eng := { w.eng with frameId := some fid } }
  match w.eng.renderer, w.eng.scene, w.eng.camera with
  | some _, some _, some _ => .ok { w with draws := w.draws + 1 }
  | _, _, _ => .error w

/-- `resize()`: reads the window size, sets the camera aspect, recomputes
the projection matrix, and resizes the renderer output. -/
def resize (w : World) (win : WindowDims) : Except World World :=
  let width := win.innerWidth
  let height := win.innerHeight
  match w.eng.camera with
  | none => .error w
  | some cam =>
  let cam := { cam with aspect := width / height }
  let cam := cam.updateProjectionMatrix
  let w := { w with eng := { w.eng with camera := some cam } }
  match w.eng.renderer with
  | none => .error w
  | some r =>
    .ok { w with eng := { w.eng with renderer := some (r.setSize width height) } }

/-- `ngOnDestroy()`: cancels the recorded animation frame when one was ever
recorded (`frameId != null`), and does nothing otherwise. -/
def ngOnDestroy (w : World) : World :=
  match w.eng.frameId with
  | none => w
  | some fid =>
    { w with cancels := w.cancels ++ [fid], pending := w.pending.erase fid }

/-- `animate()`: starts the render loop immediately when the document has
finished loading, otherwise defers it to a `DOMContentLoaded` listener; also
registers the window `resize` listener.  (`runOutsideAngular` has no
observable effect in this model.) -/
noncomputable def animate (w : World) (docReady : Bool) (nowMs : ℚ) : World :=
  let w :=
    if docReady then exState (render w nowMs)
    else { w with listeners :=
      w.listeners ++ [Listener.mk "document" "DOMContentLoaded" .startRender] }
  { w with listeners := w.listeners ++ [Listener.mk "window" "resize" .doResize] }

/-- Effect of a color-input listener callback fired with input value `v`.
The `startRender` and `doResize` callbacks are dispatched through their own
event arms in `handleEvent`. -/
def applyAction (w : World) (a : ListenerAction) (v : String) : World :=
  match a with
  | .setBodyColor => { w with eng := { w.eng with
      bodyMaterial := w.eng.bodyMaterial.map (fun m => m.setColor v) } }
  | .setDetailsColor => { w with eng := { w.eng with
      detailsMaterial := w.eng.detailsMaterial.map (fun m => m.setColor v) } }
  | .setGlassColor => { w with eng := { w.eng with
      glassMaterial := w.eng.glassMaterial.map (fun m => m.setColor v) } }
  | .startRender => w
  | .doResize => w

/-- One event-loop occurrence the embedded program can observe: an animation
frame firing, a window resize, an input/change event delivered to a DOM
element, or the (at most once) `DOMContentLoaded` event. -/
inductive Event where
  | frameFire (nowMs : ℚ)
  | windowResize (win : WindowDims)
  | inputEvent (target eventKind value : String)
  | domContentLoaded (nowMs : ℚ)

/-- One step of the browser event loop. An animation frame fires the oldest
pending callback (which is always the service's `render`); a resize event
runs `resize` once per registered window-resize listener; a DOM event runs
the matching element listeners; `DOMContentLoaded` fires its listeners once
and is then spent. -/
noncomputable def handleEvent (w : World) (e : Event) : World :=
  match e with
  | .frameFire nowMs =>
    match w.pending with
    | [] => w
    | _ :: rest => exState (render { w with pending := rest } nowMs)
  | .windowResize win =>
    (w.listeners.filter
      (fun l => l.target == "window" && l.eventKind == "resize")).foldl
      (fun acc _ => exState (resize acc win)) w
  | .inputEvent t k v =>
    (w.listeners.filter (fun l => l.target == t && l.eventKind == k)).foldl
      (fun acc l => applyAction acc l.action v) w
  | .domContentLoaded nowMs =>
    if w.domLoaded then w
    else
      let w' := (w.listeners.filter
        (fun l => l.target == "document" && l.eventKind == "DOMContentLoaded")).foldl
        (fun acc _ => exState (render acc nowMs)) w
      { w' with domLoaded := true }

/-- Run a sequence of event-loop steps. -/
noncomputable def runEvents (w : World) (evs : List Event) : World :=
  evs.foldl handleEvent w

/-! ### Concrete fixtures used by witnesses and counterexamples -/

/-- A document holding all three color inputs. -/
def domFull : Dom := ⟨true, true, true⟩

/-- A window of 1280×720 with pixel ratio 1. -/
def winEx : WindowDims := ⟨1280, 720, 1⟩

/-- A freshly constructed service in a fully loaded document. -/
def wInit : World := World.fresh domFull true

/-- The world right after a successful `createScene` on `wInit`. -/
def wS : World := exState (createScene wInit winEx)

/-- The camera `createScene` builds for window `win`. -/
def cameraFor (win : WindowDims) : PerspectiveCamera :=
  { fov := 40, aspect := win.innerWidth / win.innerHeight, near := 0.1,
    far := 100, posX := 4.25, posY := 1.4, posZ := -4.5, projFov := 40,
    projAspect := win.innerWidth / win.innerHeight, projNear := 0.1,
    projFar := 100 }

/-- The renderer `createScene` builds for window `win`. -/
def rendererFor (win : WindowDims) : Renderer :=
  { alpha := true, antialias := true, width := win.innerWidth,
    height := win.innerHeight, pixelRatio := win.devicePixelRatio,
    outputEncoding := .sRGBEncoding, toneMapping := .acesFilmicToneMapping,
    toneMappingExposure := 0.85 }

/-- The orbit controls `createScene` builds. -/
def controlsInit : Controls :=
  { targetX := 0, targetY := 0.5, targetZ := 0, updated := true }

/-- The scene `createScene` builds, before any load completes. -/
def sceneInit : Scene :=
  { background := .hexNum 0xeeeeee, environmentSet := true,
    fog := some (.hexNum 0xeeeeee, 10, 50), gridAdded := true,
    carModel := none }

/-- The grid helper `createScene` builds. -/
def gridInit : GridHelper :=
  { size := 100, divisions := 40, colorCenterLine := .hexNum 0x000000,
    colorGrid := .hexNum 0x000000, posZ := 0 }

/-- The three listeners `createScene` registers, in registration order. -/
def sceneListeners : List Listener :=
  [Listener.mk "body-color" "change" .setBodyColor,
   Listener.mk "details-color" "input" .setDetailsColor,
   Listener.mk "glass-color" "input" .setGlassColor]

/-- The camera `createScene` builds for `winEx`. -/
def camS : PerspectiveCamera := cameraFor winEx

/-- The renderer `createScene` builds for `winEx`. -/
def rendS : Renderer := rendererFor winEx

/-- A loaded-model node with the given name, carrying one of the asset's own
materials and no rotation. -/
def mkNode (n : String) : Object3D :=
  { name := n, material := .loadedDefault 0, rotationX := 0 }

/-- A car model exposing all ten names the load callback looks up. -/
def carNodes : List Object3D :=
  [mkNode "body", mkNode "rim_fl", mkNode "rim_fr", mkNode "rim_rl",
   mkNode "rim_rr", mkNode "glass", mkNode "wheel_fl", mkNode "wheel_fr",
   mkNode "wheel_rl", mkNode "wheel_rr"]

/-- A successful load result for `carNodes`. -/
def gEx : Gltf := ⟨[carNodes]⟩

/-- The world after `createScene` on `wInit` and a completed load of `gEx`. -/
noncomputable def wLoaded : World := exState (onCarLoad wS gEx)

/-- Whether the first child of the loaded scene has a node named `n`. -/
def gltfHasNode (g : Gltf) (n : String) : Bool :=
  match g.sceneChildren.head? with
  | none => false
  | some c => (getObjectByName c n).isSome

/-- The material of the node named `n` in an object list. -/
def materialAt (c : List Object3D) (n : String) : Option MaterialRef :=
  (getObjectByName c n).map Object3D.material

/-- How many nodes carry one of the three replacement materials. -/
def replacedCount (c : List Object3D) : Nat :=
  (c.filter (fun o => o.material == .bodyRef || o.material == .detailsRef ||
    o.material == .glassRef)).length

/-- The car model currently attached to the scene, if any. -/
def carModelOf (w : World) : Option (List Object3D) :=
  match w.eng.scene with
  | none => none
  | some sc => sc.carModel

/-! ### Theorems -/

/-- C10: calling `ngOnDestroy` while `frameId` is still `null` (no frame was
ever scheduled) performs no cancellation, does not throw, and leaves the
whole world unchanged. -/
theorem ngOnDestroy_without_frame_is_noop (w : World)
    (h : w.eng.frameId = none) :
    ngOnDestroy w = w ∧ (ngOnDestroy w).cancels = w.cancels := by
  constructor <;> simp [ngOnDestroy, h]

/-- Witness for C10 at a freshly constructed service. -/
theorem ngOnDestroy_without_frame_is_noop_witness :
    ngOnDestroy (World.fresh domFull true) = World.fresh domFull true ∧
    (ngOnDestroy (World.fresh domFull true)).cancels =
      (World.fresh domFull true).cancels :=
  ngOnDestroy_without_frame_is_noop (World.fresh domFull true) rfl

/-- C7: when any of the three color inputs is missing from the document,
`createScene` throws a reference error at the corresponding
`addEventListener` call, before the renderer, camera, controls, scene or
grid are constructed, so every service field is exactly as it was. -/
theorem createScene_missing_input_throws (w : World) (win : WindowDims)
    (h : w.dom.hasBodyColorInput = false ∨ w.dom.hasDetailsColorInput = false ∨
         w.dom.hasGlassColorInput = false) :
    ∃ w', createScene w win = .error w' ∧ w'.eng = w.eng := by
  rcases hB : w.dom.hasBodyColorInput with _ | _
  · exact ⟨w, by simp [createScene, Dom.getElementById, hB], rfl⟩
  · rcases hD : w.dom.hasDetailsColorInput with _ | _
    · exact ⟨{ w with listeners := w.listeners ++
          [Listener.mk "body-color" "change" ListenerAction.setBodyColor] },
        by simp [createScene, Dom.getElementById, hB, hD], rfl⟩
    · rcases hG : w.dom.hasGlassColorInput with _ | _
      · exact ⟨{ w with listeners := w.listeners ++
            [Listener.mk "body-color" "change" ListenerAction.setBodyColor] ++
            [Listener.mk "details-color" "input" ListenerAction.setDetailsColor] },
          by simp [createScene, Dom.getElementById, hB, hD, hG], rfl⟩
      · simp [hB, hD, hG] at h

/-- Witness for C7: a document missing only the glass color input. -/
theorem createScene_missing_input_throws_witness :
    ∃ w', createScene (World.fresh ⟨true, true, false⟩ true) winEx = .error w' ∧
      w'.eng = (World.fresh ⟨true, true, false⟩ true).eng :=
  createScene_missing_input_throws (World.fresh ⟨true, true, false⟩ true) winEx
    (Or.inr (Or.inr rfl))

/-- Helper: the exact state `resize` produces when camera and renderer are
assigned. -/
theorem resize_eq (w : World) (win : WindowDims) (cam : PerspectiveCamera)
    (r : Renderer) (hc : w.eng.camera = some cam)
    (hr : w.eng.renderer = some r) :
    resize w win = .ok { w with eng := { w.eng with
      camera := some (PerspectiveCamera.updateProjectionMatrix ({ cam with aspect := win.innerWidth / win.innerHeight })),
      renderer := some (r.setSize win.innerWidth win.innerHeight) } } := by
  simp [resize, hc, hr]

/-- C3: `resize` under a window of size (W, H) with H ≠ 0 returns normally,
sets the camera aspect ratio to W/H and the renderer output size to (W, H). -/
theorem resize_sets_aspect_and_size (w : World) (win : WindowDims)
    (cam : PerspectiveCamera) (r : Renderer)
    (hc : w.eng.camera = some cam) (hr : w.eng.renderer = some r)
    (hh : win.innerHeight ≠ 0) :
    ∃ w', resize w win = .ok w' ∧
      w'.eng.camera.map PerspectiveCamera.aspect =
        some (win.innerWidth / win.innerHeight) ∧
      w'.eng.renderer.map Renderer.width = some win.innerWidth ∧
      w'.eng.renderer.map Renderer.height = some win.innerHeight := by
  refine ⟨_, resize_eq w win cam r hc hr, ?_, ?_, ?_⟩ <;>
    simp [PerspectiveCamera.updateProjectionMatrix, Renderer.setSize]

/-- Witness for C3 at an 800×600 window on the state `createScene` built. -/
theorem resize_sets_aspect_and_size_witness :
    ∃ w', resize wS ⟨800, 600, 1⟩ = .ok w' ∧
      w'.eng.camera.map PerspectiveCamera.aspect = some ((800 : ℚ) / 600) ∧
      w'.eng.renderer.map Renderer.width = some (800 : ℚ) ∧
      w'.eng.renderer.map Renderer.height = some (600 : ℚ) :=
  resize_sets_aspect_and_size wS ⟨800, 600, 1⟩ camS rendS rfl rfl
    (by norm_num)

/-- C8: `resize` changes exactly the camera's aspect ratio (together with the
projection matrix it recomputes) and the renderer's output size; the fov,
near and far planes and the camera position — and every other part of the
world — are untouched. -/
theorem resize_mutates_only_aspect_and_size (w : World) (win : WindowDims)
    (cam : PerspectiveCamera) (r : Renderer)
    (hc : w.eng.camera = some cam) (hr : w.eng.renderer = some r) :
    ∃ cam' r',
      resize w win = .ok { w with eng := { w.eng with
        camera := some cam', renderer := some r' } } ∧
      cam'.fov = cam.fov ∧ cam'.near = cam.near ∧ cam'.far = cam.far ∧
      cam'.posX = cam.posX ∧ cam'.posY = cam.posY ∧ cam'.posZ = cam.posZ ∧
      cam'.aspect = win.innerWidth / win.innerHeight ∧
      r'.width = win.innerWidth ∧ r'.height = win.innerHeight ∧
      r'.pixelRatio = r.pixelRatio ∧ r'.alpha = r.alpha ∧
      r'.antialias = r.antialias ∧ r'.outputEncoding = r.outputEncoding ∧
      r'.toneMapping = r.toneMapping ∧
      r'.toneMappingExposure = r.toneMappingExposure := by
  refine ⟨_, _, resize_eq w win cam r hc hr, ?_, ?_, ?_, ?_, ?_, ?_, ?_, ?_,
    ?_, ?_, ?_, ?_, ?_, ?_, ?_⟩ <;>
    simp [PerspectiveCamera.updateProjectionMatrix, Renderer.setSize]

/-- Witness for C8 at an 800×600 window on the state `createScene` built. -/
theorem resize_mutates_only_aspect_and_size_witness :
    ∃ cam' r', resize wS ⟨800, 600, 1⟩ = .ok { wS with eng := { wS.eng with
      camera := some cam', renderer := some r' } } := by
  obtain ⟨cam', r', hres, -⟩ :=
    resize_mutates_only_aspect_and_size wS ⟨800, 600, 1⟩ camS rendS rfl rfl
  exact ⟨cam', r', hres⟩

/-- Helper: the exact state a successful `createScene` produces. -/
theorem createScene_ok (w : World) (win : WindowDims)
    (hB : w.dom.hasBodyColorInput = true)
    (hD : w.dom.hasDetailsColorInput = true)
    (hG : w.dom.hasGlassColorInput = true) :
    createScene w win = .ok { w with
      listeners := w.listeners ++ sceneListeners,
      eng := { w.eng with
        canvasSet := true, renderer := some (rendererFor win),
        camera := some (cameraFor win), controls := some controlsInit,
        scene := some sceneInit, grid := some gridInit,
        bodyMaterial := some bodyMaterial0,
        detailsMaterial := some detailsMaterial0,
        glassMaterial := some glassMaterial0, loadRequested := true } } := by
  simp [createScene, Dom.getElementById, hB, hD, hG, sceneListeners,
        rendererFor, cameraFor, controlsInit, sceneInit, gridInit,
        Renderer.new, Renderer.setSize, PerspectiveCamera.new]

/-- Helper: the wheel loop succeeds on a list of assigned wheels and sets
every rotation to the given value. -/
theorem rotateWheelsPartial_all_some (l : List (Option Object3D)) (r : ℝ)
    (h : ∀ x ∈ l, x.isSome = true) :
    (rotateWheelsPartial l r).2 = true ∧
    ∀ x ∈ (rotateWheelsPartial l r).1, ∃ o, x = some o ∧ o.rotationX = r := by
  induction l with
  | nil => simp [rotateWheelsPartial]
  | cons hd tl ih =>
    cases hd with
    | none => simpa using h none (List.mem_cons_self _ _)
    | some o =>
      obtain ⟨h1, h2⟩ := ih (fun x hx => h x (List.mem_cons_of_mem _ hx))
      refine ⟨by simpa [rotateWheelsPartial] using h1, ?_⟩
      intro x hx
      simp only [rotateWheelsPartial, List.mem_cons] at hx
      rcases hx with hx | hx
      · exact ⟨_, hx, rfl⟩
      · exact h2 x hx

/-- Helper: the exact state a `render` call produces when every wheel entry
and every scene object it dereferences is assigned. -/
theorem render_eq (w : World) (nowMs : ℚ)
    (hall : ∀ r, (rotateWheelsPartial w.eng.wheels r).2 = true)
    (g : GridHelper) (hg : w.eng.grid = some g)
    (r0 : Renderer) (hr : w.eng.renderer = some r0)
    (sc : Scene) (hs : w.eng.scene = some sc)
    (cam : PerspectiveCamera) (hc : w.eng.camera = some cam) :
    render w nowMs = .ok { w with
      renderCalls := w.renderCalls + 1,
      nextFrameId := w.nextFrameId + 1,
      pending := w.pending ++ [w.nextFrameId],
      draws := w.draws + 1,
      eng := { w.eng with
        wheels := (rotateWheelsPartial w.eng.wheels
          (((-nowMs / 1000 : ℚ) : ℝ) * Real.pi)).1,
        grid := some ({ g with posZ := jsRem (-(-nowMs / 1000)) 5 }),
        frameId := some w.nextFrameId } } := by
  simp [render, hall, hg, hr, hs, hc]

/-- C2: a `render` call at elapsed time `t` seconds (`performance.now()`
reads `1000·t` milliseconds) returns normally and sets the x-axis rotation
of every registered wheel to `(-t)·π`; the value depends on `t` alone. -/
theorem render_wheel_rotation (w : World) (t : ℚ) (ht : 0 ≤ t)
    (hw : ∀ x ∈ w.eng.wheels, x.isSome = true)
    (hg : w.eng.grid.isSome = true) (hr : w.eng.renderer.isSome = true)
    (hs : w.eng.scene.isSome = true) (hc : w.eng.camera.isSome = true) :
    exOk (render w (1000 * t)) = true ∧
    ∀ x ∈ (exState (render w (1000 * t))).eng.wheels, ∃ o, x = some o ∧
      o.rotationX = (-(t : ℝ)) * Real.pi := by
  obtain ⟨g, hg⟩ := Option.isSome_iff_exists.mp hg
  obtain ⟨r0, hr⟩ := Option.isSome_iff_exists.mp hr
  obtain ⟨sc, hs⟩ := Option.isSome_iff_exists.mp hs
  obtain ⟨cam, hc⟩ := Option.isSome_iff_exists.mp hc
  have hall : ∀ r, (rotateWheelsPartial w.eng.wheels r).2 = true :=
    fun r => (rotateWheelsPartial_all_some w.eng.wheels r hw).1
  constructor
  · simp [render, hall, hg, hr, hs, hc, exOk]
  · intro x hx
    simp only [render, exState] at hx
    simp [hall, hg, hr, hs, hc] at hx
    obtain ⟨o, ho, hrot⟩ :=
      (rotateWheelsPartial_all_some w.eng.wheels _ hw).2 x hx
    refine ⟨o, ho, ?_⟩
    rw [hrot]
    ring

/-- Helper: on a state whose wheel list is empty but whose scene objects are
assigned, `render` returns normally, draws once, leaves the scene object
untouched, and re-establishes every one of those preconditions — so each
rescheduled frame succeeds again. -/
theorem render_no_wheels (w : World) (nowMs : ℚ)
    (hw : w.eng.wheels = [])
    (g : GridHelper) (hg : w.eng.grid = some g)
    (sc : Scene) (hs : w.eng.scene = some sc)
    (hr : w.eng.renderer.isSome = true) (hc : w.eng.camera.isSome = true) :
    ∃ w2, render w nowMs = .ok w2 ∧ w2.draws = w.draws + 1 ∧
      w2.eng.scene = some sc ∧ w2.eng.wheels = [] ∧
      w2.eng.grid.isSome = true ∧ w2.eng.renderer = w.eng.renderer ∧
      w2.eng.camera = w.eng.camera := by
  obtain ⟨r0, hr0⟩ := Option.isSome_iff_exists.mp hr
  obtain ⟨cam, hc0⟩ := Option.isSome_iff_exists.mp hc
  have hall : ∀ r, (rotateWheelsPartial w.eng.wheels r).2 = true := by
    intro r
    rw [hw]
    simp [rotateWheelsPartial]
  have hre := render_eq w nowMs hall g hg r0 hr0 sc hs cam hc0
  refine ⟨_, hre, rfl, by simpa using hs, ?_, by simp, rfl, rfl⟩
  simp [hw, rotateWheelsPartial]

/-- C6: when the load callback has never run (`wheels` still empty), any
`render` after a successful `createScene` returns normally, issues exactly
one draw call, and draws a scene holding the grid and background but no car
model; the same preconditions hold again afterwards, so every rescheduled
frame keeps rendering the car-less scene without throwing. -/
theorem render_without_car_model (w0 : World) (win : WindowDims) (nowMs : ℚ)
    (hw : w0.eng.wheels = [])
    (hok : exOk (createScene w0 win) = true) :
    ∃ w2, render (exState (createScene w0 win)) nowMs = .ok w2 ∧
      w2.draws = (exState (createScene w0 win)).draws + 1 ∧
      ∃ sc, w2.eng.scene = some sc ∧ sc.carModel = none ∧
        sc.gridAdded = true ∧
      w2.eng.wheels = [] ∧ w2.eng.grid.isSome = true ∧
      w2.eng.renderer.isSome = true ∧ w2.eng.camera.isSome = true := by
  rcases hB : w0.dom.hasBodyColorInput with _ | _
  · simp [createScene, Dom.getElementById, hB, exOk] at hok
  · rcases hD : w0.dom.hasDetailsColorInput with _ | _
    · simp [createScene, Dom.getElementById, hB, hD, exOk] at hok
    · rcases hG : w0.dom.hasGlassColorInput with _ | _
      · simp [createScene, Dom.getElementById, hB, hD, hG, exOk] at hok
      · have hE := createScene_ok w0 win hB hD hG
        have hgE : (exState (createScene w0 win)).eng.grid = some gridInit := by
          rw [hE]
          simp [exState]
        have hrE : (exState (createScene w0 win)).eng.renderer =
            some (rendererFor win) := by
          rw [hE]
          simp [exState]
        have hsE : (exState (createScene w0 win)).eng.scene =
            some sceneInit := by
          rw [hE]
          simp [exState]
        have hcE : (exState (createScene w0 win)).eng.camera =
            some (cameraFor win) := by
          rw [hE]
          simp [exState]
        have hwE : (exState (createScene w0 win)).eng.wheels = [] := by
          rw [hE]
          simp [exState, hw]
        obtain ⟨w2, hre, hd, hsc2, hw2, hg2, hr2, hc2⟩ :=
          render_no_wheels (exState (createScene w0 win)) nowMs hwE
            gridInit hgE sceneInit hsE (by rw [hrE]; rfl) (by rw [hcE]; rfl)
        refine ⟨w2, hre, hd, sceneInit, hsc2, rfl, rfl, hw2, hg2, ?_, ?_⟩
        · rw [hr2, hrE]
          rfl
        · rw [hc2, hcE]
          rfl

/-- Witness for C6: a fresh service, a successful `createScene`, one frame. -/
theorem render_without_car_model_witness :
    ∃ w2, render (exState (createScene wInit winEx)) 16 = .ok w2 ∧
      w2.draws = (exState (createScene wInit winEx)).draws + 1 ∧
      ∃ sc, w2.eng.scene = some sc ∧ sc.carModel = none ∧
        sc.gridAdded = true ∧
      w2.eng.wheels = [] ∧ w2.eng.grid.isSome = true ∧
      w2.eng.renderer.isSome = true ∧ w2.eng.camera.isSome = true :=
  render_without_car_model wInit winEx 16 rfl rfl

/-- Witness for C2: two seconds after the clock origin, on the state with
the four wheels registered by a completed load. -/
theorem render_wheel_rotation_witness :
    (0 : ℚ) ≤ 2 ∧
    (exOk (render wLoaded (1000 * 2)) = true ∧
     ∀ x ∈ (exState (render wLoaded (1000 * 2))).eng.wheels, ∃ o, x = some o ∧
       o.rotationX = (-((2 : ℚ) : ℝ)) * Real.pi) :=
  ⟨by norm_num, render_wheel_rotation wLoaded 2 (by norm_num) (by decide)
    rfl rfl rfl rfl⟩

/-- Helper: a non-throwing result is an `ok` whose payload `exState`
returns. -/
theorem exOk_exists (e : Except World World) (h : exOk e = true) :
    ∃ w', e = .ok w' ∧ exState e = w' := by
  cases e with
  | error w => simp [exOk] at h
  | ok w => exact ⟨w, rfl, rfl⟩

/-- C4 counterexample: the body input reacts to `change` events, but
delivering a `change` event to the details color input has no effect at all
— its listener was registered for `input` events — so the three inputs do
not share one triggering event kind. -/
theorem details_change_event_has_no_effect :
    (handleEvent wS (.inputEvent "details-color" "change" "#00ff00")
      ).eng.detailsMaterial = some detailsMaterial0 ∧
    detailsMaterial0.color = ColorVal.hexNum 0xffffff ∧
    ColorVal.hexNum 0xffffff ≠ ColorVal.css "#00ff00" := by
  refine ⟨?_, rfl, by decide⟩
  rfl

/-- C4 (amended): after `createScene`, a `change` event on the body color
input sets the body material's color to exactly the delivered value, and an
`input` event on the details (resp. glass) color input does the same for the
details (resp. glass) material; details and glass behave identically, while
the body input differs from them only in its triggering event kind. -/
theorem color_inputs_set_material_colors (w0 : World) (win : WindowDims)
    (v : String) (hl : w0.listeners = [])
    (hB : w0.dom.hasBodyColorInput = true)
    (hD : w0.dom.hasDetailsColorInput = true)
    (hG : w0.dom.hasGlassColorInput = true) :
    ((handleEvent (exState (createScene w0 win))
        (.inputEvent "body-color" "change" v)).eng.bodyMaterial).map
        Material.color = some (.css v) ∧
    ((handleEvent (exState (createScene w0 win))
        (.inputEvent "details-color" "input" v)).eng.detailsMaterial).map
        Material.color = some (.css v) ∧
    ((handleEvent (exState (createScene w0 win))
        (.inputEvent "glass-color" "input" v)).eng.glassMaterial).map
        Material.color = some (.css v) := by
  rw [createScene_ok w0 win hB hD hG]
  simp [exState, handleEvent, sceneListeners, hl, applyAction,
        Material.setColor]

/-- Witness for C4 on a fresh service and a concrete color value. -/
theorem color_inputs_set_material_colors_witness :
    ((handleEvent (exState (createScene wInit winEx))
        (.inputEvent "body-color" "change" "#123456")).eng.bodyMaterial).map
        Material.color = some (.css "#123456") ∧
    ((handleEvent (exState (createScene wInit winEx))
        (.inputEvent "details-color" "input" "#123456")
        ).eng.detailsMaterial).map
        Material.color = some (.css "#123456") ∧
    ((handleEvent (exState (createScene wInit winEx))
        (.inputEvent "glass-color" "input" "#123456")).eng.glassMaterial).map
        Material.color = some (.css "#123456") :=
  color_inputs_set_material_colors wInit winEx "#123456" rfl rfl rfl rfl

/-- Helper: assigning a material to name `n` changes exactly what a lookup
of `n` returns: the same first-matching node, with the new material. -/
theorem getObjectByName_set_same (l : List Object3D) (n : String)
    (m : MaterialRef) :
    getObjectByName (setMaterialByName l n m) n =
      (getObjectByName l n).map (fun o => { o with material := m }) := by
  induction l with
  | nil => rfl
  | cons hd tl ih =>
    rcases h : (hd.name == n) with _ | _
    · simpa [getObjectByName, setMaterialByName, List.find?_cons, h]
        using ih
    · simp [getObjectByName, setMaterialByName, List.find?_cons, h]

/-- Helper: assigning a material to name `n` does not affect lookups of any
other name. -/
theorem getObjectByName_set_ne (l : List Object3D) (n n' : String)
    (m : MaterialRef) (hne : n ≠ n') :
    getObjectByName (setMaterialByName l n m) n' = getObjectByName l n' := by
  induction l with
  | nil => rfl
  | cons hd tl ih =>
    rcases h : (hd.name == n) with _ | _
    · rcases h2 : (hd.name == n') with _ | _
      · simpa [getObjectByName, setMaterialByName, List.find?_cons, h, h2]
          using ih
      · simp [getObjectByName, setMaterialByName, List.find?_cons, h, h2]
    · have hname : hd.name = n := by simpa using h
      have hne' : (hd.name == n') = false := by
        simp [hname]
        exact hne
      simp [getObjectByName, setMaterialByName, List.find?_cons, h, hne']

/-- Helper: a lookup that succeeds in `l` gives the same node in `l ++ l'`. -/
theorem getObjectByName_append_left (l l' : List Object3D) (n : String)
    (h : (getObjectByName l n).isSome = true) :
    getObjectByName (l ++ l') n = getObjectByName l n := by
  induction l with
  | nil => simp [getObjectByName] at h
  | cons hd tl ih =>
    rcases hh : (hd.name == n) with _ | _
    · have h' : (getObjectByName tl n).isSome = true := by
        simpa [getObjectByName, List.find?_cons, hh] using h
      simpa [getObjectByName, List.find?_cons, hh] using ih h'
    · simp [getObjectByName, List.find?_cons, hh]

/-- Helper: a lookup that succeeds still succeeds after any material
assignment. -/
theorem isSome_getObjectByName_set (l : List Object3D) (n n' : String)
    (m : MaterialRef) (h : (getObjectByName l n').isSome = true) :
    (getObjectByName (setMaterialByName l n m) n').isSome = true := by
  by_cases hn : n = n'
  · subst hn
    rw [getObjectByName_set_same]
    simpa using h
  · rw [getObjectByName_set_ne l n n' m hn]
    exact h

/-- Helper: a material assignment to a present name succeeds. -/
theorem assignMaterial_of_isSome (c : List Object3D) (n : String)
    (m : MaterialRef) (h : (getObjectByName c n).isSome = true) :
    assignMaterial c n m = some (setMaterialByName c n m) := by
  obtain ⟨o, ho⟩ := Option.isSome_iff_exists.mp h
  unfold assignMaterial
  rw [ho]

/-- Helper: the material a lookup reports right after assigning it. -/
theorem materialAt_set_same (l : List Object3D) (n : String)
    (m : MaterialRef) (h : (getObjectByName l n).isSome = true) :
    materialAt (setMaterialByName l n m) n = some m := by
  obtain ⟨o, ho⟩ := Option.isSome_iff_exists.mp h
  simp [materialAt, getObjectByName_set_same, ho]

/-- C1 (amended): on a freshly created scene, a load callback that finds all
its named sub-meshes returns normally, registers exactly four wheel objects
(all assigned), and attaches a car model in which the six named sub-meshes —
body, the four rims, and glass — carry the service's body/details/glass
materials in place of their loaded defaults. -/
theorem carLoad_registers_four_wheels_and_replaces_materials
    (w : World) (g : Gltf) (c0 : List Object3D)
    (hw : w.eng.wheels = [])
    (sc0 : Scene) (hsc : w.eng.scene = some sc0)
    (hhead : g.sceneChildren.head? = some c0)
    (hbody : (getObjectByName c0 "body").isSome = true)
    (hrim1 : (getObjectByName c0 "rim_fl").isSome = true)
    (hrim2 : (getObjectByName c0 "rim_fr").isSome = true)
    (hrim3 : (getObjectByName c0 "rim_rl").isSome = true)
    (hrim4 : (getObjectByName c0 "rim_rr").isSome = true)
    (hglass : (getObjectByName c0 "glass").isSome = true)
    (hwh1 : (getObjectByName c0 "wheel_fl").isSome = true)
    (hwh2 : (getObjectByName c0 "wheel_fr").isSome = true)
    (hwh3 : (getObjectByName c0 "wheel_rl").isSome = true)
    (hwh4 : (getObjectByName c0 "wheel_rr").isSome = true) :
    exOk (onCarLoad w g) = true ∧
    (exState (onCarLoad w g)).eng.wheels.length = 4 ∧
    (∀ x ∈ (exState (onCarLoad w g)).eng.wheels, x.isSome = true) ∧
    ∃ c, carModelOf (exState (onCarLoad w g)) = some c ∧
      materialAt c "body" = some .bodyRef ∧
      materialAt c "rim_fl" = some .detailsRef ∧
      materialAt c "rim_fr" = some .detailsRef ∧
      materialAt c "rim_rl" = some .detailsRef ∧
      materialAt c "rim_rr" = some .detailsRef ∧
      materialAt c "glass" = some .glassRef := by
  obtain ⟨ob, hob⟩ := Option.isSome_iff_exists.mp hbody
  obtain ⟨o1, ho1⟩ := Option.isSome_iff_exists.mp hrim1
  obtain ⟨o2, ho2⟩ := Option.isSome_iff_exists.mp hrim2
  obtain ⟨o3, ho3⟩ := Option.isSome_iff_exists.mp hrim3
  obtain ⟨o4, ho4⟩ := Option.isSome_iff_exists.mp hrim4
  obtain ⟨og, hog⟩ := Option.isSome_iff_exists.mp hglass
  set b := MaterialRef.bodyRef with hb
  set d := MaterialRef.detailsRef with hd
  set gl := MaterialRef.glassRef with hgl
  set c1 := setMaterialByName c0 "body" b with hc1e
  set c2 := setMaterialByName c1 "rim_fl" d with hc2e
  set c3 := setMaterialByName c2 "rim_fr" d with hc3e
  set c4 := setMaterialByName c3 "rim_rl" d with hc4e
  set c5 := setMaterialByName c4 "rim_rr" d with hc5e
  set c6 := setMaterialByName c5 "glass" gl with hc6e
  have p1 : ∀ n', (getObjectByName c0 n').isSome = true →
      (getObjectByName c1 n').isSome = true :=
    fun n' h => isSome_getObjectByName_set c0 "body" n' b h
  have p2 : ∀ n', (getObjectByName c1 n').isSome = true →
      (getObjectByName c2 n').isSome = true :=
    fun n' h => isSome_getObjectByName_set c1 "rim_fl" n' d h
  have p3 : ∀ n', (getObjectByName c2 n').isSome = true →
      (getObjectByName c3 n').isSome = true :=
    fun n' h => isSome_getObjectByName_set c2 "rim_fr" n' d h
  have p4 : ∀ n', (getObjectByName c3 n').isSome = true →
      (getObjectByName c4 n').isSome = true :=
    fun n' h => isSome_getObjectByName_set c3 "rim_rl" n' d h
  have p5 : ∀ n', (getObjectByName c4 n').isSome = true →
      (getObjectByName c5 n').isSome = true :=
    fun n' h => isSome_getObjectByName_set c4 "rim_rr" n' d h
  have p6 : ∀ n', (getObjectByName c5 n').isSome = true →
      (getObjectByName c6 n').isSome = true :=
    fun n' h => isSome_getObjectByName_set c5 "glass" n' gl h
  have e1 : assignMaterial c0 "body" b = some c1 :=
    assignMaterial_of_isSome _ _ _ hbody
  have e2 : assignMaterial c1 "rim_fl" d = some c2 :=
    assignMaterial_of_isSome _ _ _ (p1 _ hrim1)
  have e3 : assignMaterial c2 "rim_fr" d = some c3 :=
    assignMaterial_of_isSome _ _ _ (p2 _ (p1 _ hrim2))
  have e4 : assignMaterial c3 "rim_rl" d = some c4 :=
    assignMaterial_of_isSome _ _ _ (p3 _ (p2 _ (p1 _ hrim3)))
  have e5 : assignMaterial c4 "rim_rr" d = some c5 :=
    assignMaterial_of_isSome _ _ _ (p4 _ (p3 _ (p2 _ (p1 _ hrim4))))
  have e6 : assignMaterial c5 "glass" gl = some c6 :=
    assignMaterial_of_isSome _ _ _ (p5 _ (p4 _ (p3 _ (p2 _ (p1 _ hglass)))))
  have hload : onCarLoad w g = Except.ok { w with eng := { w.eng with
      wheels := w.eng.wheels ++ [getObjectByName c6 "wheel_fl",
        getObjectByName c6 "wheel_fr", getObjectByName c6 "wheel_rl",
        getObjectByName c6 "wheel_rr"],
      scene := some ({ sc0 with carModel := some (c6 ++ [shadowMesh]) }) } } := by
    simp only [onCarLoad, hhead, e1, e2, e3, e4, e5, e6, hsc]
  have hbody6 : getObjectByName c6 "body" = some { ob with material := b } := by
    rw [hc6e, getObjectByName_set_ne _ _ _ _ (by decide),
        hc5e, getObjectByName_set_ne _ _ _ _ (by decide),
        hc4e, getObjectByName_set_ne _ _ _ _ (by decide),
        hc3e, getObjectByName_set_ne _ _ _ _ (by decide),
        hc2e, getObjectByName_set_ne _ _ _ _ (by decide),
        hc1e, getObjectByName_set_same, hob]
    rfl
  have hrim1f : getObjectByName c6 "rim_fl" = some { o1 with material := d } := by
    rw [hc6e, getObjectByName_set_ne _ _ _ _ (by decide),
        hc5e, getObjectByName_set_ne _ _ _ _ (by decide),
        hc4e, getObjectByName_set_ne _ _ _ _ (by decide),
        hc3e, getObjectByName_set_ne _ _ _ _ (by decide),
        hc2e, getObjectByName_set_same,
        hc1e, getObjectByName_set_ne _ _ _ _ (by decide), ho1]
    rfl
  have hrim2f : getObjectByName c6 "rim_fr" = some { o2 with material := d } := by
    rw [hc6e, getObjectByName_set_ne _ _ _ _ (by decide),
        hc5e, getObjectByName_set_ne _ _ _ _ (by decide),
        hc4e, getObjectByName_set_ne _ _ _ _ (by decide),
        hc3e, getObjectByName_set_same,
        hc2e, getObjectByName_set_ne _ _ _ _ (by decide),
        hc1e, getObjectByName_set_ne _ _ _ _ (by decide), ho2]
    rfl
  have hrim3f : getObjectByName c6 "rim_rl" = some { o3 with material := d } := by
    rw [hc6e, getObjectByName_set_ne _ _ _ _ (by decide),
        hc5e, getObjectByName_set_ne _ _ _ _ (by decide),
        hc4e, getObjectByName_set_same,
        hc3e, getObjectByName_set_ne _ _ _ _ (by decide),
        hc2e, getObjectByName_set_ne _ _ _ _ (by decide),
        hc1e, getObjectByName_set_ne _ _ _ _ (by decide), ho3]
    rfl
  have hrim4f : getObjectByName c6 "rim_rr" = some { o4 with material := d } := by
    rw [hc6e, getObjectByName_set_ne _ _ _ _ (by decide),
        hc5e, getObjectByName_set_same,
        hc4e, getObjectByName_set_ne _ _ _ _ (by decide),
        hc3e, getObjectByName_set_ne _ _ _ _ (by decide),
        hc2e, getObjectByName_set_ne _ _ _ _ (by decide),
        hc1e, getObjectByName_set_ne _ _ _ _ (by decide), ho4]
    rfl
  have hglassf : getObjectByName c6 "glass" = some { og with material := gl } := by
    rw [hc6e, getObjectByName_set_same,
        hc5e, getObjectByName_set_ne _ _ _ _ (by decide),
        hc4e, getObjectByName_set_ne _ _ _ _ (by decide),
        hc3e, getObjectByName_set_ne _ _ _ _ (by decide),
        hc2e, getObjectByName_set_ne _ _ _ _ (by decide),
        hc1e, getObjectByName_set_ne _ _ _ _ (by decide), hog]
    rfl
  have happB : getObjectByName (c6 ++ [shadowMesh]) "body" =
      getObjectByName c6 "body" :=
    getObjectByName_append_left _ _ _ (by rw [hbody6]; rfl)
  have happ1 : getObjectByName (c6 ++ [shadowMesh]) "rim_fl" =
      getObjectByName c6 "rim_fl" :=
    getObjectByName_append_left _ _ _ (by rw [hrim1f]; rfl)
  have happ2 : getObjectByName (c6 ++ [shadowMesh]) "rim_fr" =
      getObjectByName c6 "rim_fr" :=
    getObjectByName_append_left _ _ _ (by rw [hrim2f]; rfl)
  have happ3 : getObjectByName (c6 ++ [shadowMesh]) "rim_rl" =
      getObjectByName c6 "rim_rl" :=
    getObjectByName_append_left _ _ _ (by rw [hrim3f]; rfl)
  have happ4 : getObjectByName (c6 ++ [shadowMesh]) "rim_rr" =
      getObjectByName c6 "rim_rr" :=
    getObjectByName_append_left _ _ _ (by rw [hrim4f]; rfl)
  have happG : getObjectByName (c6 ++ [shadowMesh]) "glass" =
      getObjectByName c6 "glass" :=
    getObjectByName_append_left _ _ _ (by rw [hglassf]; rfl)
  have hW1 : (getObjectByName c6 "wheel_fl").isSome = true :=
    p6 _ (p5 _ (p4 _ (p3 _ (p2 _ (p1 _ hwh1)))))
  have hW2 : (getObjectByName c6 "wheel_fr").isSome = true :=
    p6 _ (p5 _ (p4 _ (p3 _ (p2 _ (p1 _ hwh2)))))
  have hW3 : (getObjectByName c6 "wheel_rl").isSome = true :=
    p6 _ (p5 _ (p4 _ (p3 _ (p2 _ (p1 _ hwh3)))))
  have hW4 : (getObjectByName c6 "wheel_rr").isSome = true :=
    p6 _ (p5 _ (p4 _ (p3 _ (p2 _ (p1 _ hwh4)))))
  refine ⟨by rw [hload]; rfl, ?_, ?_, ?_⟩
  · rw [hload]
    simp [exState, hw]
  · rw [hload]
    intro x hx
    simp only [exState, hw, List.nil_append] at hx
    simp only [List.mem_cons, List.not_mem_nil, or_false] at hx
    rcases hx with hx | hx | hx | hx <;> rw [hx]
    · exact hW1
    · exact hW2
    · exact hW3
    · exact hW4
  · refine ⟨c6 ++ [shadowMesh], ?_, ?_, ?_, ?_, ?_, ?_, ?_⟩
    · rw [hload]
      simp [carModelOf, exState]
    · simp [materialAt, happB, hbody6]
    · simp [materialAt, happ1, hrim1f]
    · simp [materialAt, happ2, hrim2f]
    · simp [materialAt, happ3, hrim3f]
    · simp [materialAt, happ4, hrim4f]
    · simp [materialAt, happG, hglassf]

/-- Witness for C1 on a fresh post-`createScene` state and a model exposing
all ten names. -/
theorem carLoad_registers_four_wheels_witness :
    exOk (onCarLoad wS gEx) = true ∧
    (exState (onCarLoad wS gEx)).eng.wheels.length = 4 ∧
    (∀ x ∈ (exState (onCarLoad wS gEx)).eng.wheels, x.isSome = true) ∧
    ∃ c, carModelOf (exState (onCarLoad wS gEx)) = some c ∧
      materialAt c "body" = some .bodyRef ∧
      materialAt c "rim_fl" = some .detailsRef ∧
      materialAt c "rim_fr" = some .detailsRef ∧
      materialAt c "rim_rl" = some .detailsRef ∧
      materialAt c "rim_rr" = some .detailsRef ∧
      materialAt c "glass" = some .glassRef :=
  carLoad_registers_four_wheels_and_replaces_materials wS gEx carNodes rfl
    sceneInit rfl rfl rfl rfl rfl rfl rfl rfl rfl rfl rfl rfl

/-- C1 counterexample: on a concrete successful load, the named sub-meshes
whose materials get replaced by the service's materials number six — body,
the four rims, and glass — not five as the claim counts them. -/
theorem carLoad_replaces_six_not_five :
    ∃ w', onCarLoad wS gEx = Except.ok w' ∧
      ∃ c, carModelOf w' = some c ∧ replacedCount c = 6 ∧
        replacedCount c ≠ 5 :=
  ⟨_, rfl, _, rfl, by decide, by decide⟩

/-- Helper: `createScene` never touches the wheel list, on success or on a
thrown reference error alike. -/
theorem createScene_preserves_wheels (w : World) (win : WindowDims) :
    (exState (createScene w win)).eng.wheels = w.eng.wheels := by
  rcases hB : w.dom.hasBodyColorInput with _ | _
  · simp [createScene, Dom.getElementById, hB, exState]
  · rcases hD : w.dom.hasDetailsColorInput with _ | _
    · simp [createScene, Dom.getElementById, hB, hD, exState]
    · rcases hG : w.dom.hasGlassColorInput with _ | _
      · simp [createScene, Dom.getElementById, hB, hD, hG, exState]
      · simp [createScene, Dom.getElementById, hB, hD, hG, exState]

/-- Helper: a load callback that returns normally appends exactly four
entries to the wheel list. -/
theorem onCarLoad_wheels (w : World) (g : Gltf) (w' : World)
    (h : onCarLoad w g = .ok w') :
    ∃ l, l.length = 4 ∧ w'.eng.wheels = w.eng.wheels ++ l := by
  unfold onCarLoad at h
  split at h
  · exact absurd h (by simp)
  · split at h
    · exact absurd h (by simp)
    · split at h
      · exact absurd h (by simp)
      · split at h
        · exact absurd h (by simp)
        · split at h
          · exact absurd h (by simp)
          · split at h
            · exact absurd h (by simp)
            · split at h
              · exact absurd h (by simp)
              · dsimp only at h
                split at h
                · exact absurd h (by simp)
                · injection h with h
                  subst h
                  refine ⟨_, ?_, rfl⟩
                  rfl

/-- C9: the wheel list is never reset: running `createScene` twice on the
same singleton service, each followed by a completed load, leaves eight
wheel entries — the "exactly four wheels" postcondition only holds for the
first load on a fresh service. -/
theorem wheels_accumulate_across_loads (w0 : World) (win1 win2 : WindowDims)
    (g1 g2 : Gltf) (hw : w0.eng.wheels = [])
    (hl1 : exOk (onCarLoad (exState (createScene w0 win1)) g1) = true)
    (hl2 : exOk (onCarLoad (exState (createScene
      (exState (onCarLoad (exState (createScene w0 win1)) g1)) win2))
      g2) = true) :
    (exState (onCarLoad (exState (createScene
      (exState (onCarLoad (exState (createScene w0 win1)) g1)) win2))
      g2)).eng.wheels.length = 8 := by
  obtain ⟨wA, hA, hAs⟩ := exOk_exists _ hl1
  obtain ⟨l1, hl1len, hw1⟩ := onCarLoad_wheels _ g1 wA hA
  obtain ⟨wB, hB, hBs⟩ := exOk_exists _ hl2
  obtain ⟨l2, hl2len, hw2⟩ := onCarLoad_wheels _ g2 wB hB
  rw [hBs, hw2, createScene_preserves_wheels, hAs, hw1,
      createScene_preserves_wheels, hw]
  simp [hl1len, hl2len]

/-- Witness for C9: two `createScene`+load rounds on one fresh service. -/
theorem wheels_accumulate_across_loads_witness :
    (exState (onCarLoad (exState (createScene
      (exState (onCarLoad (exState (createScene wInit winEx)) gEx)) winEx))
      gEx)).eng.wheels.length = 8 :=
  wheels_accumulate_across_loads wInit winEx winEx gEx gEx rfl rfl rfl

/-- Helper: `resize` touches neither the frame queue, the draw and render
counters, the listener registry, nor the document-loaded flag. -/
theorem resize_quiet (w : World) (win : WindowDims) :
    (exState (resize w win)).pending = w.pending ∧
    (exState (resize w win)).domLoaded = w.domLoaded ∧
    (exState (resize w win)).renderCalls = w.renderCalls ∧
    (exState (resize w win)).draws = w.draws ∧
    (exState (resize w win)).nextFrameId = w.nextFrameId := by
  rcases hc : w.eng.camera with _ | cam
  · simp [resize, hc, exState]
  · rcases hr : w.eng.renderer with _ | r0
    · simp [resize, hc, hr, exState]
    · simp [resize, hc, hr, exState]

/-- Helper: a color-input callback touches only the service materials. -/
theorem applyAction_quiet (w : World) (a : ListenerAction) (v : String) :
    (applyAction w a v).pending = w.pending ∧
    (applyAction w a v).domLoaded = w.domLoaded ∧
    (applyAction w a v).renderCalls = w.renderCalls ∧
    (applyAction w a v).draws = w.draws ∧
    (applyAction w a v).nextFrameId = w.nextFrameId := by
  cases a <;> simp [applyAction]

/-- Helper: with an empty frame queue and the document-loaded event spent,
one event-loop step never runs `render`: the queue stays empty and the
render, draw and frame-id counters keep their values. -/
theorem handleEvent_quiet (w : World) (e : Event)
    (hp : w.pending = []) (hd : w.domLoaded = true) :
    (handleEvent w e).pending = [] ∧ (handleEvent w e).domLoaded = true ∧
    (handleEvent w e).renderCalls = w.renderCalls ∧
    (handleEvent w e).draws = w.draws ∧
    (handleEvent w e).nextFrameId = w.nextFrameId := by
  cases e with
  | frameFire nowMs => simp [handleEvent, hp, hd]
  | windowResize win =>
    have main : ∀ (ls : List Listener) (w1 : World),
        ((ls.foldl (fun acc _ => exState (resize acc win)) w1).pending =
          w1.pending ∧
         (ls.foldl (fun acc _ => exState (resize acc win)) w1).domLoaded =
          w1.domLoaded ∧
         (ls.foldl (fun acc _ => exState (resize acc win)) w1).renderCalls =
          w1.renderCalls ∧
         (ls.foldl (fun acc _ => exState (resize acc win)) w1).draws =
          w1.draws ∧
         (ls.foldl (fun acc _ => exState (resize acc win)) w1).nextFrameId =
          w1.nextFrameId) := by
      intro ls
      induction ls with
      | nil => intro w1; simp
      | cons hd2 tl ih =>
        intro w1
        obtain ⟨a1, a2, a3, a4, a5⟩ := resize_quiet w1 win
        obtain ⟨b1, b2, b3, b4, b5⟩ := ih (exState (resize w1 win))
        exact ⟨b1.trans a1, b2.trans a2, b3.trans a3, b4.trans a4,
               b5.trans a5⟩
    obtain ⟨m1, m2, m3, m4, m5⟩ := main
      (w.listeners.filter
        (fun l => l.target == "window" && l.eventKind == "resize")) w
    exact ⟨by simpa [handleEvent, hp] using m1,
           by simpa [handleEvent, hd] using m2,
           by simpa [handleEvent] using m3,
           by simpa [handleEvent] using m4,
           by simpa [handleEvent] using m5⟩
  | inputEvent t k v =>
    have main : ∀ (ls : List Listener) (w1 : World),
        ((ls.foldl (fun acc l => applyAction acc l.action v) w1).pending =
          w1.pending ∧
         (ls.foldl (fun acc l => applyAction acc l.action v) w1).domLoaded =
          w1.domLoaded ∧
         (ls.foldl (fun acc l => applyAction acc l.action v) w1).renderCalls =
          w1.renderCalls ∧
         (ls.foldl (fun acc l => applyAction acc l.action v) w1).draws =
          w1.draws ∧
         (ls.foldl (fun acc l => applyAction acc l.action v) w1).nextFrameId =
          w1.nextFrameId) := by
      intro ls
      induction ls with
      | nil => intro w1; simp
      | cons hd2 tl ih =>
        intro w1
        obtain ⟨a1, a2, a3, a4, a5⟩ := applyAction_quiet w1 hd2.action v
        obtain ⟨b1, b2, b3, b4, b5⟩ := ih (applyAction w1 hd2.action v)
        exact ⟨b1.trans a1, b2.trans a2, b3.trans a3, b4.trans a4,
               b5.trans a5⟩
    obtain ⟨m1, m2, m3, m4, m5⟩ := main
      (w.listeners.filter (fun l => l.target == t && l.eventKind == k)) w
    exact ⟨by simpa [handleEvent, hp] using m1,
           by simpa [handleEvent, hd] using m2,
           by simpa [handleEvent] using m3,
           by simpa [handleEvent] using m4,
           by simpa [handleEvent] using m5⟩
  | domContentLoaded nowMs => simp [handleEvent, hp, hd]

/-- Helper: `handleEvent_quiet` extended over any event sequence. -/
theorem runEvents_quiet (evs : List Event) : ∀ (w : World),
    w.pending = [] → w.domLoaded = true →
    (runEvents w evs).pending = [] ∧ (runEvents w evs).domLoaded = true ∧
    (runEvents w evs).renderCalls = w.renderCalls ∧
    (runEvents w evs).draws = w.draws ∧
    (runEvents w evs).nextFrameId = w.nextFrameId := by
  induction evs with
  | nil =>
    intro w hp hd
    exact ⟨hp, hd, rfl, rfl, rfl⟩
  | cons e tl ih =>
    intro w hp hd
    obtain ⟨a1, a2, a3, a4, a5⟩ := handleEvent_quiet w e hp hd
    obtain ⟨b1, b2, b3, b4, b5⟩ := ih (handleEvent w e) a1 a2
    exact ⟨b1, b2, b3.trans a3, b4.trans a4, b5.trans a5⟩

/-- C5: when `ngOnDestroy` cancels while the recorded frame is the one
pending, the frame queue empties, and from then on no event-loop step ever
invokes `render` again: across any later event sequence the render and draw
counts and the frame-id counter are frozen and the queue stays empty.  (A
pending animation frame implies `render` already ran, so the one-shot
`DOMContentLoaded` event is already spent; `domLoaded = true` records
that.) -/
theorem cancel_stops_render_loop (w : World) (fid : Nat) (evs : List Event)
    (hp : w.pending = [fid]) (hf : w.eng.frameId = some fid)
    (hd : w.domLoaded = true) :
    (ngOnDestroy w).pending = [] ∧
    (runEvents (ngOnDestroy w) evs).renderCalls = w.renderCalls ∧
    (runEvents (ngOnDestroy w) evs).draws = w.draws ∧
    (runEvents (ngOnDestroy w) evs).nextFrameId = w.nextFrameId ∧
    (runEvents (ngOnDestroy w) evs).pending = [] := by
  have hcancel : ngOnDestroy w =
      { w with cancels := w.cancels ++ [fid], pending := [] } := by
    simp [ngOnDestroy, hf, hp]
  obtain ⟨q1, q2, q3, q4, q5⟩ := runEvents_quiet evs (ngOnDestroy w)
    (by rw [hcancel]) (by rw [hcancel]; exact hd)
  refine ⟨by rw [hcancel], ?_, ?_, ?_, q1⟩
  · rw [q3, hcancel]
  · rw [q4, hcancel]
  · rw [q5, hcancel]

/-- Witness for C5: a world with one pending recorded frame, torn down, then
fed a frame firing, a resize, a color event and a (spent) document-loaded
event. -/
theorem cancel_stops_render_loop_witness :
    (ngOnDestroy { wS with pending := [7], eng := { wS.eng with
      frameId := some 7 } }).pending = [] ∧
    (runEvents (ngOnDestroy { wS with pending := [7], eng := { wS.eng with
      frameId := some 7 } }) [.frameFire 16, .windowResize ⟨800, 600, 1⟩,
        .inputEvent "body-color" "change" "#abcdef",
        .domContentLoaded 17]).renderCalls =
      { wS with pending := [7], eng := { wS.eng with
        frameId := some 7 } }.renderCalls ∧
    (runEvents (ngOnDestroy { wS with pending := [7], eng := { wS.eng with
      frameId := some 7 } }) [.frameFire 16, .windowResize ⟨800, 600, 1⟩,
        .inputEvent "body-color" "change" "#abcdef",
        .domContentLoaded 17]).draws =
      { wS with pending := [7], eng := { wS.eng with
        frameId := some 7 } }.draws ∧
    (runEvents (ngOnDestroy { wS with pending := [7], eng := { wS.eng with
      frameId := some 7 } }) [.frameFire 16, .windowResize ⟨800, 600, 1⟩,
        .inputEvent "body-color" "change" "#abcdef",
        .domContentLoaded 17]).nextFrameId =
      { wS with pending := [7], eng := { wS.eng with
        frameId := some 7 } }.nextFrameId ∧
    (runEvents (ngOnDestroy { wS with pending := [7], eng := { wS.eng with
      frameId := some 7 } }) [.frameFire 16, .windowResize ⟨800, 600, 1⟩,
        .inputEvent "body-color" "change" "#abcdef",
        .domContentLoaded 17]).pending = [] :=
  cancel_stops_render_loop
    { wS with pending := [7], eng := { wS.eng with frameId := some 7 } } 7
    [.frameFire 16, .windowResize ⟨800, 600, 1⟩,
     .inputEvent "body-color" "change" "#abcdef", .domContentLoaded 17]
    rfl rfl rfl

end ThreeCar
